import Mathlib

/-!
Shallow embedding of the manga chapter tracking and notification engine
(`app/services/manga_tracker_service.py`, `app/services/notification_service.py`,
`app/services/firebase_service.py`).

Timestamps (`created_at`, `last_created_at`) are Python strings compared with
the native `<` / `>` operators, i.e. lexicographically by code point; Python
truthiness on such a value (`if not last_created_at`) means "None or empty
string", which we model with `Option String` where `some ""` is also falsy.
-/

namespace Manga

/-- Lexicographic comparison of character lists by code point: the shallow
embedding of the Python string `<` operator. A proper prefix is smaller. -/
def lexLt : List Char → List Char → Bool
  | [], [] => false
  | [], _ :: _ => true
  | _ :: _, [] => false
  | a :: as, b :: bs =>
      if a < b then true
      else if b < a then false
      else lexLt as bs

/-- Python string comparison `a < b` on code points. -/
def pyLt (a b : String) : Bool := lexLt a.data b.data

/-- Python string comparison `a <= b` (negation of `b < a`, since the code
point order is total). -/
def pyLe (a b : String) : Bool := !(pyLt b a)

/-- Python truthiness-aware "is strictly newer" test used all over
`manga_tracker_service.py`: `if not last_created_at or chapter_created_at > last_created_at`.
A cursor of `None` or `""` is falsy, so any chapter counts as newer. -/
def newer (chapter_created_at : String) (last_created_at : Option String) : Bool :=
  match last_created_at with
  | none => true
  | some l => l == "" || pyLt l chapter_created_at

/-- The cursor-advance step `if not latest_created_at or chapter_created_at >
latest_created_at: latest_created_at = chapter_created_at`, shared by
`_check_manga_chapters` and `initialize_manga_tracking`. -/
def update_latest (latest_created_at : Option String) (chapter_created_at : String) :
    Option String :=
  if newer chapter_created_at latest_created_at then some chapter_created_at
  else latest_created_at

/-- A chapter as returned by the content source fetch (`_fetch_manga_chapters`):
the fields of the API payload that the tracker reads. `chap` holds the result
of `str(chapter.get('chap', ''))`, so a missing number is the empty string. -/
structure Chapter where
  id : Nat
  chap : String
  title : String
  created_at : String
  group_name : List String
deriving DecidableEq

/-- A new-chapter record as built by `_check_manga_chapters` (the dict appended
to the pending batch), i.e. a fetched chapter plus `detected_at`. -/
structure NewChapterRecord where
  id : Nat
  chap : String
  title : String
  created_at : String
  group_name : List String
  detected_at : String
deriving DecidableEq

/-- Building the pending-batch record from a fetched chapter in
`_check_manga_chapters`. -/
def toRecord (now : String) (ch : Chapter) : NewChapterRecord :=
  { id := ch.id, chap := ch.chap, title := ch.title, created_at := ch.created_at,
    group_name := ch.group_name, detected_at := now }

/-- The per-manga tracking document (`manga_trackings` collection). -/
structure Tracking where
  last_created_at : Option String
  already_notified_chapters : List String
  last_checked_at : String
  is_active : Bool
  updated_at : String
deriving DecidableEq

/-- The mutable accumulator of the diff loop in `_check_manga_chapters`:
`new_chapters` and `latest_created_at`. -/
structure DiffAcc where
  new_chapters : List NewChapterRecord
  latest_created_at : Option String
deriving DecidableEq

/-- One iteration of the `for chapter in chapters` loop of
`_check_manga_chapters`: skip chapters with an empty number or one already in
`already_notified_chapters`; classify a chapter as new when it is newer than
the (fixed) cursor; track the maximum `created_at` among classified chapters. -/
def diffStep (last_created_at : Option String) (already_notified : List String)
    (now : String) (acc : DiffAcc) (chapter : Chapter) : DiffAcc :=
  if chapter.chap == "" || already_notified.contains chapter.chap then acc
  else if newer chapter.created_at last_created_at then
    { new_chapters := acc.new_chapters ++ [toRecord now chapter],
      latest_created_at := update_latest acc.latest_created_at chapter.created_at }
  else acc

/-- The merge-by-number append of `_store_pending_notifications`: when a
pending document exists, a new record is appended only when its number is not
among the numbers the batch held BEFORE the call (the set is computed once and
not updated inside the loop); when no document exists, the new records are
stored verbatim. -/
def store_pending (pending : Option (List NewChapterRecord))
    (new_chapters : List NewChapterRecord) : List NewChapterRecord :=
  match pending with
  | some existing_chapters =>
      let existing_chap_nums := existing_chapters.map (fun ch => ch.chap)
      new_chapters.foldl
        (fun acc chapter =>
          if existing_chap_nums.contains chapter.chap then acc else acc ++ [chapter])
        existing_chapters
  | none => new_chapters

/-- The slice of store state that one `_check_manga_chapters` call can touch:
the manga's tracking document and its pending-notifications document. -/
structure MangaState where
  tracking : Tracking
  pending : Option (List NewChapterRecord)
deriving DecidableEq

/-- The body of `_check_manga_chapters` for one manga, given the fetched
chapter list: an empty fetch returns immediately with no mutation; otherwise
the diff loop runs, and only if new chapters were found are the cursor
advanced (`_update_manga_tracking`) and the records appended to the pending
batch (`_store_pending_notifications`). Returns the new chapters and the
resulting state. -/
def check_manga_chapters (st : MangaState) (chapters : List Chapter) (now : String) :
    List NewChapterRecord × MangaState :=
  if chapters.isEmpty then ([], st)
  else
    let last_created_at := st.tracking.last_created_at
    let already_notified := st.tracking.already_notified_chapters
    let acc := chapters.foldl (diffStep last_created_at already_notified now)
      { new_chapters := [], latest_created_at := last_created_at }
    if acc.new_chapters.isEmpty then (acc.new_chapters, st)
    else
      ( acc.new_chapters,
        { tracking :=
            { st.tracking with
                last_created_at := acc.latest_created_at
                last_checked_at := now
                updated_at := now },
          pending := some (store_pending st.pending acc.new_chapters) } )

/-- The per-handle store state seen by `initialize_manga_tracking`: the
tracking document may not exist yet. -/
structure HandleState where
  tracking : Option Tracking
  pending : Option (List NewChapterRecord)
deriving DecidableEq

/-- `initialize_manga_tracking`: when no tracking document exists, fetch once
(the fetched list is the `fetched` argument), seed `already_notified_chapters`
with every returned chapter's nonempty number and `last_created_at` with the
maximum `created_at`, and create the document; when the document exists, only
set `is_active` and refresh `updated_at` (no fetch happens, which is reflected
by the result not depending on `fetched`). Returns the new state and the
boolean result of the call. -/
def initialize_manga_tracking (st : HandleState) (fetched : List Chapter) (now : String) :
    HandleState × Bool :=
  match st.tracking with
  | none =>
      let latest_created_at :=
        fetched.foldl (fun acc ch => update_latest acc ch.created_at) none
      let existing_chapters :=
        fetched.foldl (fun acc ch => if ch.chap == "" then acc else acc ++ [ch.chap]) []
      ( { tracking := some
            { last_created_at := latest_created_at
              already_notified_chapters := existing_chapters
              last_checked_at := now
              is_active := true
              updated_at := now },
          pending := st.pending }, true )
  | some t =>
      ( { tracking := some { t with is_active := true, updated_at := now },
          pending := st.pending }, true )

/-- Python `str.strip()` on the underlying character list: drop leading and
trailing whitespace. -/
def stripChars (cs : List Char) : List Char :=
  ((cs.dropWhile Char.isWhitespace).reverse.dropWhile Char.isWhitespace).reverse

/-- Python `str.strip()`. -/
def pyStrip (s : String) : String := String.mk (stripChars s.data)

/-- Token validity filter of `send_notification_to_tokens`:
`token and isinstance(token, str) and token.strip()`. -/
def validToken (token : String) : Bool := !(token == "") && !(pyStrip token == "")

/-- One per-token entry of the `responses` list built by
`send_notification_to_tokens`. -/
structure TokenResponse where
  token_index : Nat
  success : Bool
  error : Option String
deriving DecidableEq

/-- The dictionary returned by `send_notification_to_tokens`. -/
structure SendOutcome where
  error : Option String
  success_count : Nat
  failure_count : Nat
  total_tokens : Nat
  valid_tokens_count : Nat
  responses : List TokenResponse
deriving DecidableEq

/-- The push transport: `messaging.send` either returns a message id or raises,
modelled as `Except`. -/
def SendFn : Type := String → Except String String

/-- Whether a `messaging.send` call returned normally (no exception). -/
def sendOk (r : Except String String) : Bool :=
  match r with
  | Except.ok _ => true
  | Except.error _ => false

/-- The entry of `responses` produced for the token at position `i`. -/
def tokenResponse (send : SendFn) (p : Nat × String) : TokenResponse :=
  match send p.2 with
  | Except.ok _ => { token_index := p.1, success := true, error := none }
  | Except.error e => { token_index := p.1, success := false, error := some e }

/-- The `for i, token in enumerate(valid_tokens)` loop of
`send_notification_to_tokens`: every token is attempted, a raise from one send
is caught and recorded, and the loop continues with the next token. Returns
the success count, the failure count and the ordered response list. -/
def sendEach (send : SendFn) : Nat → List String → Nat × Nat × List TokenResponse
  | _, [] => (0, 0, [])
  | i, token :: rest =>
      let r := sendEach send (i + 1) rest
      match send token with
      | Except.ok _ => (r.1 + 1, r.2.1, tokenResponse send (i, token) :: r.2.2)
      | Except.error _ => (r.1, r.2.1 + 1, tokenResponse send (i, token) :: r.2.2)

/-- `send_notification_to_tokens`: early return for an empty token list, early
return when filtering leaves no valid token (reporting every token as a
failure), otherwise the independent per-token delivery loop. -/
def send_notification_to_tokens (send : SendFn) (tokens : List String) : SendOutcome :=
  if tokens.isEmpty then
    { error := some "No tokens provided", success_count := 0, failure_count := 0,
      total_tokens := 0, valid_tokens_count := 0, responses := [] }
  else
    let valid_tokens := tokens.filter validToken
    if valid_tokens.isEmpty then
      { error := some "No valid tokens after filtering", success_count := 0,
        failure_count := tokens.length, total_tokens := tokens.length,
        valid_tokens_count := 0, responses := [] }
    else
      let r := sendEach send 0 valid_tokens
      { error := none, success_count := r.1, failure_count := r.2.1,
        total_tokens := tokens.length, valid_tokens_count := valid_tokens.length,
        responses := r.2.2 }

/-- The keys of the dictionary returned by `send_manga_notification` that its
caller reads with `.get(key, 0)`: `none` models an absent key (the early
returns for "no subscribers" / "no tokens" carry neither count). -/
structure SendMangaResult where
  success_count : Option Nat
  failure_count : Option Nat
deriving DecidableEq

/-- `send_manga_notification` of `notification_service.py`: resolve the
subscribers of the manga, flatten their FCM token lists in order, and if both
are non-empty delegate to `send_notification_to_tokens`. `subsOf` and
`tokensOf` model the `get_manga_subscribers` / `get_fcm_tokens` store reads. -/
def send_manga_notification (subsOf : String → List String)
    (tokensOf : String → List String) (send : SendFn) (manga_id : String) :
    SendMangaResult :=
  let subscribers := subsOf manga_id
  if subscribers.isEmpty then { success_count := none, failure_count := none }
  else
    let all_tokens := subscribers.foldl (fun acc user_id => acc ++ tokensOf user_id) []
    if all_tokens.isEmpty then { success_count := none, failure_count := none }
    else
      let result := send_notification_to_tokens send all_tokens
      { success_count := some result.success_count,
        failure_count := some result.failure_count }

/-- The per-manga result dictionary built by `_send_manga_notifications`. -/
structure MangaResult where
  manga_hid : String
  chapters_sent : List String
  subscribers_count : Nat
  success_count : Nat
  failure_count : Nat
  error : Option String
deriving DecidableEq

/-- The value of the local variable `chapter_list` at the point where the
`data` payload of `_send_manga_notifications` reads it: the variable is only
assigned in the multi-chapter branch with at least one nonempty title, so in
every other branch it is unbound (`none`) and reading it raises `NameError`. -/
def chapter_list_value (chapters : List NewChapterRecord) (chapter_titles : List String) :
    Option String :=
  if chapters.length == 1 then none
  else if chapter_titles.isEmpty then none
  else some (" • ".intercalate chapter_titles)

/-- `_send_manga_notifications` of `manga_tracker_service.py`: zero-cost result
when the manga has no subscribers; otherwise the notification body and `data`
payload are built — which raises `NameError` whenever the `chapter_list`
variable is unbound (single-chapter batch, or no nonempty chapter title), an
exception the enclosing `try` turns into an all-zero result with an `error`
key — and only then is `send_manga_notification` invoked and its counts
copied into the per-manga result. -/
def send_manga_notifications (subsOf : String → List String)
    (tokensOf : String → List String) (send : SendFn) (manga_hid : String)
    (chapters : List NewChapterRecord) : MangaResult :=
  let subscribers := subsOf manga_hid
  if subscribers.isEmpty then
    { manga_hid := manga_hid, chapters_sent := chapters.map (fun ch => ch.chap),
      subscribers_count := 0, success_count := 0, failure_count := 0, error := none }
  else
    let chapter_titles :=
      (chapters.map (fun ch => pyStrip ch.title)).filter (fun t => !(t == ""))
    match chapter_list_value chapters chapter_titles with
    | none =>
        { manga_hid := manga_hid, chapters_sent := chapters.map (fun ch => ch.chap),
          subscribers_count := 0, success_count := 0, failure_count := 0,
          error := some "NameError: name chapter_list is not defined" }
    | some _ =>
        let result := send_manga_notification subsOf tokensOf send manga_hid
        { manga_hid := manga_hid, chapters_sent := chapters.map (fun ch => ch.chap),
          subscribers_count := subscribers.length,
          success_count := result.success_count.getD 0,
          failure_count := result.failure_count.getD 0, error := none }

/-- Firestore `ArrayUnion`: append the elements not already present, in order,
never duplicating an element. -/
def arrayUnion (xs ys : List String) : List String :=
  ys.foldl (fun acc y => if acc.contains y then acc else acc ++ [y]) xs

/-- The chapter numbers extracted by `_mark_chapters_notified`:
`[str(ch.get('chap')) for ch in chapters if ch.get('chap')]`. -/
def chapterNums (chapters : List NewChapterRecord) : List String :=
  (chapters.map (fun ch => ch.chap)).filter (fun n => !(n == ""))

/-- The tracking-document update performed by `_mark_chapters_notified`:
`ArrayUnion` of the batch's chapter numbers into `already_notified_chapters`. -/
def markTracking (now : String) (chapters : List NewChapterRecord) (t : Tracking) :
    Tracking :=
  { t with
      already_notified_chapters := arrayUnion t.already_notified_chapters (chapterNums chapters)
      updated_at := now }

/-- `_mark_chapters_notified` over the `manga_trackings` collection (an
association list keyed by manga hid): update the matching document; when no
document exists the Firestore `update` raises, the exception is caught and
logged, and nothing changes. -/
def mark_chapters_notified (now : String) (trackings : List (String × Tracking))
    (manga_hid : String) (chapters : List NewChapterRecord) : List (String × Tracking) :=
  trackings.map (fun p => if p.1 == manga_hid then (p.1, markTracking now chapters p.2) else p)

/-- The aggregate results dictionary of `send_scheduled_notifications`. -/
structure RunResults where
  total_manga_processed : Nat
  total_notifications_sent : Nat
  total_success : Nat
  total_failures : Nat
  manga_notifications : List MangaResult
deriving DecidableEq

/-- The two collections touched by a notification run: the pending batches and
the tracking documents, both keyed by manga hid. -/
structure Store where
  pending : List (String × List NewChapterRecord)
  trackings : List (String × Tracking)
deriving DecidableEq

/-- The external collaborators of a notification run: subscriber resolution,
token resolution and the push transport. -/
structure Env where
  subsOf : String → List String
  tokensOf : String → List String
  send : SendFn

/-- Folding one per-manga result into the aggregate results, as done in the
body of the `for doc in pending_docs` loop of `send_scheduled_notifications`. -/
def addResult (res : RunResults) (mr : MangaResult) : RunResults :=
  { total_manga_processed := res.total_manga_processed + 1
    total_notifications_sent := res.total_notifications_sent + mr.subscribers_count
    total_success := res.total_success + mr.success_count
    total_failures := res.total_failures + mr.failure_count
    manga_notifications := res.manga_notifications ++ [mr] }

/-- The `for doc in pending_docs` loop of `send_scheduled_notifications`: a
document with an empty chapter list is skipped (and in particular NOT
deleted); otherwise the manga's notifications are dispatched, the chapter
numbers are marked notified, and the pending document is deleted. Returns the
aggregate results, the surviving pending documents and the updated tracking
documents. -/
def notifLoop (env : Env) (now : String) :
    List (String × List NewChapterRecord) → List (String × Tracking) → RunResults →
    RunResults × List (String × List NewChapterRecord) × List (String × Tracking)
  | [], trackings, res => (res, [], trackings)
  | (manga_hid, chapters) :: rest, trackings, res =>
      if chapters.isEmpty then
        let r := notifLoop env now rest trackings res
        (r.1, (manga_hid, chapters) :: r.2.1, r.2.2)
      else
        let mr := send_manga_notifications env.subsOf env.tokensOf env.send manga_hid chapters
        notifLoop env now rest (mark_chapters_notified now trackings manga_hid chapters)
          (addResult res mr)

/-- `send_scheduled_notifications`: drain every pending batch, starting from
empty aggregate results. -/
def send_scheduled_notifications (env : Env) (now : String) (st : Store) :
    RunResults × Store :=
  let r := notifLoop env now st.pending st.trackings
    { total_manga_processed := 0, total_notifications_sent := 0, total_success := 0,
      total_failures := 0, manga_notifications := [] }
  (r.1, { pending := r.2.1, trackings := r.2.2 })

/-- Ordering on optional cursors used to state monotonicity: `none` (no cursor
yet) is below everything, and present cursors are compared with the Python
string order. -/
def optLe : Option String → Option String → Prop
  | none, _ => True
  | some _, none => False
  | some a, some b => pyLe a b = true

/-! Order-theoretic facts about the embedded Python string comparison. -/

theorem lexLt_nil_right : ∀ as : List Char, lexLt as [] = false
  | [] => rfl
  | _ :: _ => rfl

theorem lexLt_nil_left_eq_false {bs : List Char} (h : lexLt [] bs = false) : bs = [] := by
  cases bs with
  | nil => rfl
  | cons b bs => simp [lexLt] at h

theorem lexLt_irrefl : ∀ as : List Char, lexLt as as = false
  | [] => rfl
  | a :: as => by
      simp only [lexLt, lt_irrefl, if_false]
      exact lexLt_irrefl as

theorem lexLt_cons_true_iff {a b : Char} {as bs : List Char} :
    lexLt (a :: as) (b :: bs) = true ↔ a < b ∨ (a = b ∧ lexLt as bs = true) := by
  simp only [lexLt]
  rcases lt_trichotomy a b with hab | hab | hab
  · simp [hab]
  · subst hab; simp [lt_irrefl]
  · simp [lt_asymm hab, hab, hab.ne.symm]

theorem lexLt_cons_false_iff {a b : Char} {as bs : List Char} :
    lexLt (a :: as) (b :: bs) = false ↔ b < a ∨ (a = b ∧ lexLt as bs = false) := by
  simp only [lexLt]
  rcases lt_trichotomy a b with hab | hab | hab
  · simp [hab, lt_asymm hab, hab.ne]
  · subst hab; simp [lt_irrefl]
  · simp [lt_asymm hab, hab]

theorem lexLt_trans : ∀ {as bs cs : List Char},
    lexLt as bs = true → lexLt bs cs = true → lexLt as cs = true
  | [], _ :: _, _ :: _, _, _ => rfl
  | [], [], _, h, _ => by simp [lexLt] at h
  | _ :: _, [], _, h1, _ => by rw [lexLt_nil_right] at h1; exact absurd h1 (by simp)
  | _ :: _, _ :: _, [], _, h2 => by rw [lexLt_nil_right] at h2; exact absurd h2 (by simp)
  | [], _ :: _, [], _, h2 => by rw [lexLt_nil_right] at h2; exact absurd h2 (by simp)
  | a :: as, b :: bs, c :: cs, h1, h2 => by
      rw [lexLt_cons_true_iff] at h1 h2 ⊢
      rcases h1 with hab | ⟨hab, h1⟩
      · rcases h2 with hbc | ⟨hbc, h2⟩
        · exact Or.inl (lt_trans hab hbc)
        · exact Or.inl (hbc ▸ hab)
      · rcases h2 with hbc | ⟨hbc, h2⟩
        · exact Or.inl (hab ▸ hbc)
        · exact Or.inr ⟨hab.trans hbc, lexLt_trans h1 h2⟩

theorem lexLt_not_trans : ∀ {as bs cs : List Char},
    lexLt as bs = false → lexLt bs cs = false → lexLt as cs = false
  | [], bs, cs, h1, h2 => by
      have hb : bs = [] := lexLt_nil_left_eq_false h1
      subst hb
      exact h2
  | _ :: _, _, [], _, _ => lexLt_nil_right _
  | a :: as, bs, c :: cs, h1, h2 => by
      cases bs with
      | nil => simp [lexLt] at h2
      | cons b bs =>
          rw [lexLt_cons_false_iff] at h1 h2 ⊢
          rcases h1 with hab | ⟨hab, h1⟩
          · rcases h2 with hbc | ⟨hbc, h2⟩
            · exact Or.inl (lt_trans hbc hab)
            · exact Or.inl (hbc ▸ hab)
          · rcases h2 with hbc | ⟨hbc, h2⟩
            · exact Or.inl (hab ▸ hbc)
            · exact Or.inr ⟨hab.trans hbc, lexLt_not_trans h1 h2⟩

theorem pyLt_irrefl (a : String) : pyLt a a = false := lexLt_irrefl a.data

theorem pyLt_empty_right (a : String) : pyLt a "" = false := lexLt_nil_right a.data

theorem pyLt_empty_left_eq_false {b : String} (h : pyLt "" b = false) : b = "" := by
  have hd : b.data = [] := lexLt_nil_left_eq_false h
  cases b with
  | mk data => cases hd; rfl

theorem pyLt_trans {a b c : String} (h1 : pyLt a b = true) (h2 : pyLt b c = true) :
    pyLt a c = true := lexLt_trans h1 h2

theorem pyLt_not_trans {a b c : String} (h1 : pyLt a b = false) (h2 : pyLt b c = false) :
    pyLt a c = false := lexLt_not_trans h1 h2

theorem pyLt_asymm {a b : String} (h : pyLt a b = true) : pyLt b a = false := by
  cases hba : pyLt b a with
  | false => rfl
  | true =>
      have haa := pyLt_trans h hba
      rw [pyLt_irrefl] at haa
      exact absurd haa (by simp)

theorem pyLe_refl (a : String) : pyLe a a = true := by simp [pyLe, pyLt_irrefl]

theorem pyLe_trans {a b c : String} (h1 : pyLe a b = true) (h2 : pyLe b c = true) :
    pyLe a c = true := by
  simp only [pyLe, Bool.not_eq_true', Bool.not_eq_eq_eq_not] at h1 h2 ⊢
  exact pyLt_not_trans h2 h1

theorem pyLe_of_lt {a b : String} (h : pyLt a b = true) : pyLe a b = true := by
  simp only [pyLe, Bool.not_eq_true', Bool.not_eq_eq_eq_not]
  exact pyLt_asymm h

theorem optLe_refl : ∀ o : Option String, optLe o o
  | none => trivial
  | some a => pyLe_refl a

theorem optLe_trans : ∀ {o₁ o₂ o₃ : Option String}, optLe o₁ o₂ → optLe o₂ o₃ → optLe o₁ o₃
  | none, _, _, _, _ => trivial
  | some _, none, _, h1, _ => absurd h1 not_false
  | some _, some _, none, _, h2 => absurd h2 not_false
  | some _, some _, some _, h1, h2 => pyLe_trans h1 h2

theorem contains_iff_mem (l : List String) (a : String) : l.contains a = true ↔ a ∈ l := by
  simp [List.contains_iff_exists_mem_beq, beq_iff_eq]

/-! Facts about the cursor-advance step and the `newer` test. -/

theorem update_latest_mono (latest : Option String) (c : String) :
    optLe latest (update_latest latest c) := by
  unfold update_latest
  split
  · next hn =>
      cases latest with
      | none => trivial
      | some l =>
          simp only [newer, Bool.or_eq_true, beq_iff_eq] at hn
          rcases hn with hl | hl
          · subst hl
            show pyLe "" c = true
            simp only [pyLe, Bool.not_eq_true', Bool.not_eq_eq_eq_not]
            exact pyLt_empty_right c
          · exact pyLe_of_lt hl
  · exact optLe_refl latest

theorem update_latest_ub (latest : Option String) (c : String) :
    optLe (some c) (update_latest latest c) := by
  unfold update_latest
  split
  · next hn => exact pyLe_refl c
  · next hn =>
      cases latest with
      | none => simp [newer] at hn
      | some l =>
          simp only [newer, Bool.or_eq_true, beq_iff_eq, not_or] at hn
          show pyLe c l = true
          simp only [pyLe, Bool.not_eq_true', Bool.not_eq_eq_eq_not]
          simpa using hn.2

theorem newer_false_mono {c : String} : ∀ {o₁ o₂ : Option String},
    newer c o₁ = false → optLe o₁ o₂ → newer c o₂ = false
  | none, _, h, _ => by simp [newer] at h
  | some _, none, _, hle => absurd hle not_false
  | some l₁, some l₂, h, hle => by
      simp only [newer, Bool.or_eq_false_iff, beq_eq_false_iff_ne, ne_eq] at h ⊢
      have hle2 : pyLt l₂ l₁ = false := by
        simpa [optLe, pyLe, Bool.not_eq_true', Bool.not_eq_eq_eq_not] using hle
      refine ⟨?_, ?_⟩
      · intro h2
        subst h2
        exact h.1 (pyLt_empty_left_eq_false hle2)
      · exact pyLt_not_trans hle2 h.2


/-! Facts about the diff loop of `_check_manga_chapters`. -/

theorem diffStep_latest_mono (last : Option String) (notified : List String) (now : String)
    (acc : DiffAcc) (ch : Chapter) :
    optLe acc.latest_created_at (diffStep last notified now acc ch).latest_created_at := by
  unfold diffStep
  split
  · exact optLe_refl _
  · split
    · exact update_latest_mono _ _
    · exact optLe_refl _

theorem diffFold_latest_mono (last : Option String) (notified : List String) (now : String) :
    ∀ (chs : List Chapter) (acc : DiffAcc),
      optLe acc.latest_created_at
        ((chs.foldl (diffStep last notified now) acc).latest_created_at)
  | [], _ => optLe_refl _
  | ch :: chs, acc => by
      rw [List.foldl_cons]
      exact optLe_trans (diffStep_latest_mono last notified now acc ch)
        (diffFold_latest_mono last notified now chs _)

theorem optLe_some_dest {c : String} {o : Option String} (h : optLe (some c) o) :
    ∃ d, o = some d ∧ pyLe c d = true := by
  cases o with
  | none => exact absurd h not_false
  | some d => exact ⟨d, rfl, h⟩

theorem newer_false_update_self {c : String} (hc : c ≠ "") (latest : Option String) :
    newer c (update_latest latest c) = false := by
  unfold update_latest
  split
  · simp [newer, hc, pyLt_irrefl]
  · next hn => simp only [Bool.not_eq_true] at hn; exact hn

theorem diffFold_skip_second_run (last : Option String) (notified : List String) (now : String) :
    ∀ (chs : List Chapter) (acc : DiffAcc),
      optLe last acc.latest_created_at →
      (∀ ch ∈ chs, ch.created_at ≠ "") →
      ∀ ch ∈ chs, ch.chap ≠ "" → ch.chap ∉ notified →
        newer ch.created_at
          ((chs.foldl (diffStep last notified now) acc).latest_created_at) = false
  | [], _, _, _, ch, hch, _, _ => absurd hch (List.not_mem_nil ch)
  | ch0 :: chs, acc, hle, hne, ch, hch, hchap, hnot => by
      rw [List.foldl_cons]
      rcases List.mem_cons.mp hch with heq | hch2
      · subst heq
        have hstep :
            newer ch.created_at ((diffStep last notified now acc ch).latest_created_at)
              = false := by
          unfold diffStep
          split
          · next hskip =>
              exfalso
              rcases Bool.or_eq_true_iff.mp hskip with h1 | h1
              · exact hchap (by simpa using h1)
              · exact hnot ((contains_iff_mem notified ch.chap).mp h1)
          · split
            · exact newer_false_update_self (hne ch (List.mem_cons_self ch chs)) _
            · next hn => exact newer_false_mono (by simpa using hn) hle
        exact newer_false_mono hstep (diffFold_latest_mono last notified now chs _)
      · exact diffFold_skip_second_run last notified now chs (diffStep last notified now acc ch0)
          (optLe_trans hle (diffStep_latest_mono last notified now acc ch0))
          (fun c hc => hne c (List.mem_cons_of_mem ch0 hc)) ch hch2 hchap hnot

theorem diffFold_all_skip (last : Option String) (notified : List String) (now : String) :
    ∀ (chs : List Chapter) (acc : DiffAcc),
      (∀ ch ∈ chs, ch.chap = "" ∨ ch.chap ∈ notified ∨ newer ch.created_at last = false) →
      chs.foldl (diffStep last notified now) acc = acc
  | [], _, _ => rfl
  | ch :: chs, acc, h => by
      rw [List.foldl_cons]
      have hstep : diffStep last notified now acc ch = acc := by
        unfold diffStep
        rcases h ch (List.mem_cons_self ch chs) with h1 | h1 | h1
        · rw [if_pos (by simp [h1])]
        · rw [if_pos]
          simp only [Bool.or_eq_true_iff]
          exact Or.inr ((contains_iff_mem notified ch.chap).mpr h1)
        · split
          · rfl
          · rw [if_neg (by simp [h1])]
      rw [hstep]
      exact diffFold_all_skip last notified now chs acc
        (fun c hc => h c (List.mem_cons_of_mem ch hc))

theorem diffFold_new_length_mono (last : Option String) (notified : List String) (now : String) :
    ∀ (chs : List Chapter) (acc : DiffAcc),
      acc.new_chapters.length ≤ ((chs.foldl (diffStep last notified now) acc).new_chapters).length
  | [], _ => le_refl _
  | ch :: chs, acc => by
      rw [List.foldl_cons]
      refine le_trans ?_ (diffFold_new_length_mono last notified now chs _)
      unfold diffStep
      split
      · exact le_refl _
      · split
        · simp
        · exact le_refl _

theorem diffFold_pass_nonempty (last : Option String) (notified : List String) (now : String) :
    ∀ (chs : List Chapter) (acc : DiffAcc) (ch : Chapter), ch ∈ chs →
      ch.chap ≠ "" → ch.chap ∉ notified → newer ch.created_at last = true →
      0 < ((chs.foldl (diffStep last notified now) acc).new_chapters).length
  | [], _, ch, hch, _, _, _ => absurd hch (List.not_mem_nil ch)
  | ch0 :: chs, acc, ch, hch, hchap, hnot, hnew => by
      rw [List.foldl_cons]
      rcases List.mem_cons.mp hch with heq | hch2
      · subst heq
        refine lt_of_lt_of_le ?_ (diffFold_new_length_mono last notified now chs _)
        unfold diffStep
        rw [if_neg, if_pos]
        · simp
        · simp [hnew]
        · simp only [Bool.or_eq_true_iff, not_or]
          constructor
          · simpa using hchap
          · intro hc
            exact hnot ((contains_iff_mem notified ch.chap).mp hc)
      · exact diffFold_pass_nonempty last notified now chs _ ch hch2 hchap hnot hnew



/-- C5: an empty fetched chapter list makes `_check_manga_chapters` return
immediately with no new chapters and a byte-identical state: the cursor, the
notified set, `last_checked_at` and the pending batch are all untouched. -/
theorem empty_fetch_no_mutation (st : MangaState) (now : String) :
    check_manga_chapters st [] now = ([], st) := rfl

/-- C4: with cursor `2024-01-01T00:00:00Z` and an empty notified set, diffing
the fetched list `[{chap 5, created 2024-01-02}, {chap 4, created 2023-12-01}]`
classifies exactly chapter `5` as new and advances the cursor to
`2024-01-02T00:00:00Z`. -/
theorem diff_scenario_one_new_chapter :
    let st : MangaState :=
      { tracking :=
          { last_created_at := some "2024-01-01T00:00:00Z",
            already_notified_chapters := [], last_checked_at := "t0",
            is_active := true, updated_at := "t0" },
        pending := none }
    let chapters : List Chapter :=
      [ { id := 1, chap := "5", title := "Chapter 5",
          created_at := "2024-01-02T00:00:00Z", group_name := [] },
        { id := 2, chap := "4", title := "Chapter 4",
          created_at := "2023-12-01T00:00:00Z", group_name := [] } ]
    ((check_manga_chapters st chapters "t1").1.map (fun r => r.chap)) = ["5"] ∧
      (check_manga_chapters st chapters "t1").2.tracking.last_created_at
        = some "2024-01-02T00:00:00Z" := by
  decide

/-- C6: over any fetched list, `_check_manga_chapters` never rewinds the
cursor: when the tracking document holds cursor `c` before the run, it holds
some cursor `d` with `c ≤ d` (Python string order) after the run. -/
theorem cursor_monotone (st : MangaState) (chapters : List Chapter) (now : String)
    (c : String) (h : st.tracking.last_created_at = some c) :
    ∃ d, ((check_manga_chapters st chapters now).2).tracking.last_created_at = some d ∧
      pyLe c d = true := by
  by_cases he : chapters.isEmpty
  · unfold check_manga_chapters
    rw [if_pos he]
    exact ⟨c, h, pyLe_refl c⟩
  · have hfold := diffFold_latest_mono st.tracking.last_created_at
      st.tracking.already_notified_chapters now chapters
      { new_chapters := [], latest_created_at := st.tracking.last_created_at }
    rw [h] at hfold
    unfold check_manga_chapters
    rw [if_neg he]
    dsimp only
    rw [h]
    split
    · exact ⟨c, h, pyLe_refl c⟩
    · dsimp only
      exact optLe_some_dest hfold

/-- Witness for the cursor monotonicity theorem at a concrete input. -/
theorem cursor_monotone_witness :
    ∃ d,
      ((check_manga_chapters
          { tracking :=
              { last_created_at := some "2024-01-01T00:00:00Z",
                already_notified_chapters := [], last_checked_at := "t0",
                is_active := true, updated_at := "t0" },
            pending := none }
          [ { id := 1, chap := "5", title := "Chapter 5",
              created_at := "2024-01-02T00:00:00Z", group_name := [] } ]
          "t1").2).tracking.last_created_at = some d ∧
      pyLe "2024-01-01T00:00:00Z" d = true :=
  cursor_monotone _ _ _ _ rfl

/-- C7 counterexample: a chapter whose `created_at` is the empty string defeats
idempotence. The first run classifies it as new and persists the cursor `""`,
which is falsy in Python, so the second run over the unchanged fetched list
classifies the very same chapter as new again. -/
theorem diff_not_idempotent_empty_created_at :
    let st : MangaState :=
      { tracking :=
          { last_created_at := none, already_notified_chapters := [],
            last_checked_at := "t0", is_active := true, updated_at := "t0" },
        pending := none }
    let chapters : List Chapter :=
      [{ id := 1, chap := "5", title := "T", created_at := "", group_name := [] }]
    ((check_manga_chapters (check_manga_chapters st chapters "t1").2 chapters "t2").1).length
      = 1 := by
  decide

/-- C7 (amended): provided every fetched chapter has a nonempty `created_at`
(the representation the source actually uses), a second diff run over the
unchanged fetched list, after the first run persisted its cursor advance,
classifies zero chapters as new. -/
theorem diff_idempotent (st : MangaState) (chapters : List Chapter) (now1 now2 : String)
    (hne : ∀ ch ∈ chapters, ch.created_at ≠ "") :
    (check_manga_chapters (check_manga_chapters st chapters now1).2 chapters now2).1 = [] := by
  by_cases he : chapters.isEmpty
  · have h1 : check_manga_chapters st chapters now1 = ([], st) := by
      unfold check_manga_chapters; rw [if_pos he]
    rw [h1]
    unfold check_manga_chapters
    rw [if_pos he]
  · -- the first run either found nothing (state unchanged) or advanced the cursor
    have key : ∀ st2 : MangaState,
        st2.tracking.already_notified_chapters = st.tracking.already_notified_chapters →
        (∀ ch ∈ chapters, ch.chap ≠ "" →
          ch.chap ∉ st.tracking.already_notified_chapters →
          newer ch.created_at st2.tracking.last_created_at = false) →
        (check_manga_chapters st2 chapters now2).1 = [] := by
      intro st2 hnot hskip
      unfold check_manga_chapters
      rw [if_neg he]
      dsimp only
      rw [diffFold_all_skip st2.tracking.last_created_at
        st2.tracking.already_notified_chapters now2 chapters _ ?_]
      · rfl
      · intro ch hch
        by_cases hc1 : ch.chap = ""
        · exact Or.inl hc1
        · by_cases hc2 : ch.chap ∈ st2.tracking.already_notified_chapters
          · exact Or.inr (Or.inl hc2)
          · refine Or.inr (Or.inr (hskip ch hch hc1 ?_))
            rw [hnot] at hc2
            exact hc2
    by_cases hnew :
        ((chapters.foldl
            (diffStep st.tracking.last_created_at st.tracking.already_notified_chapters now1)
            { new_chapters := [], latest_created_at := st.tracking.last_created_at
              }).new_chapters).isEmpty
    · have h1 : (check_manga_chapters st chapters now1).2 = st := by
        unfold check_manga_chapters
        rw [if_neg he]
        dsimp only
        rw [if_pos hnew]
      rw [h1]
      refine key st rfl ?_
      intro ch hch hc1 hc2
      -- no new chapters were produced, so every passing chapter failed the cursor test
      cases hn : newer ch.created_at st.tracking.last_created_at with
      | false => rfl
      | true =>
          exfalso
          have hpos := diffFold_pass_nonempty st.tracking.last_created_at
            st.tracking.already_notified_chapters now1 chapters
            { new_chapters := [], latest_created_at := st.tracking.last_created_at }
            ch hch hc1 hc2 hn
          rw [List.isEmpty_iff_length_eq_zero] at hnew
          omega
    · have h1 : (check_manga_chapters st chapters now1).2.tracking.last_created_at
          = ((chapters.foldl
              (diffStep st.tracking.last_created_at st.tracking.already_notified_chapters now1)
              { new_chapters := [], latest_created_at := st.tracking.last_created_at
                }).latest_created_at) := by
        unfold check_manga_chapters
        rw [if_neg he]
        dsimp only
        rw [if_neg hnew]
      have h2 : (check_manga_chapters st chapters now1).2.tracking.already_notified_chapters
          = st.tracking.already_notified_chapters := by
        unfold check_manga_chapters
        rw [if_neg he]
        dsimp only
        rw [if_neg hnew]
      refine key _ h2 ?_
      intro ch hch hc1 hc2
      rw [h1]
      exact diffFold_skip_second_run st.tracking.last_created_at
        st.tracking.already_notified_chapters now1 chapters
        { new_chapters := [], latest_created_at := st.tracking.last_created_at }
        (optLe_refl _) hne ch hch hc1 hc2

/-- Witness for the amended idempotence theorem at a concrete input. -/
theorem diff_idempotent_witness :
    (check_manga_chapters
        (check_manga_chapters
          { tracking :=
              { last_created_at := some "2024-01-01T00:00:00Z",
                already_notified_chapters := ["3"], last_checked_at := "t0",
                is_active := true, updated_at := "t0" },
            pending := none }
          [ { id := 1, chap := "5", title := "Chapter 5",
              created_at := "2024-01-02T00:00:00Z", group_name := [] },
            { id := 2, chap := "4", title := "Chapter 4",
              created_at := "2023-12-01T00:00:00Z", group_name := [] } ]
          "t1").2
        [ { id := 1, chap := "5", title := "Chapter 5",
            created_at := "2024-01-02T00:00:00Z", group_name := [] },
          { id := 2, chap := "4", title := "Chapter 4",
            created_at := "2023-12-01T00:00:00Z", group_name := [] } ]
        "t2").1 = [] :=
  diff_idempotent _ _ _ _ (by decide)



/-! Facts about the bootstrap folds of `initialize_manga_tracking`. -/

theorem latestFold_mono : ∀ (chs : List Chapter) (acc : Option String),
    optLe acc (chs.foldl (fun a ch => update_latest a ch.created_at) acc)
  | [], _ => optLe_refl _
  | ch :: chs, acc => by
      rw [List.foldl_cons]
      exact optLe_trans (update_latest_mono acc ch.created_at) (latestFold_mono chs _)

theorem latestFold_ub : ∀ (chs : List Chapter) (acc : Option String) (ch : Chapter),
    ch ∈ chs →
    optLe (some ch.created_at) (chs.foldl (fun a c => update_latest a c.created_at) acc)
  | [], _, ch, hch => absurd hch (List.not_mem_nil ch)
  | ch0 :: chs, acc, ch, hch => by
      rw [List.foldl_cons]
      rcases List.mem_cons.mp hch with heq | hch2
      · subst heq
        exact optLe_trans (update_latest_ub acc ch.created_at) (latestFold_mono chs _)
      · exact latestFold_ub chs _ ch hch2

theorem latestFold_mem : ∀ (chs : List Chapter) (acc : Option String),
    chs.foldl (fun a c => update_latest a c.created_at) acc = acc ∨
      ∃ ch ∈ chs, chs.foldl (fun a c => update_latest a c.created_at) acc = some ch.created_at
  | [], _ => Or.inl rfl
  | ch0 :: chs, acc => by
      rw [List.foldl_cons]
      have hstep : update_latest acc ch0.created_at = acc ∨
          update_latest acc ch0.created_at = some ch0.created_at := by
        unfold update_latest
        split
        · exact Or.inr rfl
        · exact Or.inl rfl
      rcases latestFold_mem chs (update_latest acc ch0.created_at) with h | ⟨ch, hch, h⟩
      · rcases hstep with h2 | h2
        · exact Or.inl (by rw [h, h2])
        · exact Or.inr ⟨ch0, List.mem_cons_self ch0 chs, by rw [h, h2]⟩
      · exact Or.inr ⟨ch, List.mem_cons_of_mem ch0 hch, h⟩

theorem seedFold_eq : ∀ (chs : List Chapter) (acc : List String),
    (∀ ch ∈ chs, ch.chap ≠ "") →
    chs.foldl (fun a ch => if ch.chap == "" then a else a ++ [ch.chap]) acc
      = acc ++ chs.map (fun ch => ch.chap)
  | [], acc, _ => by simp
  | ch :: chs, acc, h => by
      rw [List.foldl_cons, if_neg (by simp [h ch (List.mem_cons_self ch chs)])]
      rw [seedFold_eq chs _ (fun c hc => h c (List.mem_cons_of_mem ch hc))]
      simp

/-- C8: bootstrapping a never-before-seen handle on a non-empty fetched list
(whose chapters all carry a number) creates a tracking document whose notified
set holds every returned chapter's number and whose cursor is the maximum
`created_at` of the returned chapters, returns `True`, and leaves the pending
batch untouched — no new-chapter record is emitted. -/
theorem bootstrap_seeds_notified_set (pend : Option (List NewChapterRecord))
    (fetched : List Chapter) (now : String)
    (hne : fetched ≠ [])
    (hchap : ∀ ch ∈ fetched, ch.chap ≠ "") :
    ∃ t m,
      initialize_manga_tracking { tracking := none, pending := pend } fetched now
        = ({ tracking := some t, pending := pend }, true) ∧
      t.already_notified_chapters = fetched.map (fun ch => ch.chap) ∧
      t.last_created_at = some m ∧
      m ∈ fetched.map (fun ch => ch.created_at) ∧
      (∀ ch ∈ fetched, pyLe ch.created_at m = true) := by
  obtain ⟨ch0, chs0, rfl⟩ := List.exists_cons_of_ne_nil hne
  have hub := latestFold_ub (ch0 :: chs0) none ch0 (List.mem_cons_self ch0 chs0)
  obtain ⟨m, hm, hle0⟩ := optLe_some_dest hub
  refine ⟨_, m, rfl, ?_, ?_, ?_, ?_⟩
  · exact seedFold_eq (ch0 :: chs0) [] hchap
  · exact hm
  · rcases latestFold_mem (ch0 :: chs0) none with h | ⟨ch, hch, h⟩
    · rw [h] at hm; exact absurd hm (by simp)
    · rw [h] at hm
      obtain rfl : ch.created_at = m := by injection hm
      exact List.mem_map_of_mem (fun c => c.created_at) hch
  · intro ch hch
    have := latestFold_ub (ch0 :: chs0) none ch hch
    rw [hm] at this
    exact this

/-- Witness for the bootstrap theorem: three existing chapters. -/
theorem bootstrap_seeds_notified_set_witness :
    ∃ t m,
      initialize_manga_tracking { tracking := none, pending := none }
        [ { id := 1, chap := "1", title := "c1", created_at := "2023-01-01", group_name := [] },
          { id := 2, chap := "2", title := "c2", created_at := "2023-03-01", group_name := [] },
          { id := 3, chap := "3", title := "c3", created_at := "2023-02-01", group_name := [] } ]
        "t0"
        = ({ tracking := some t, pending := none }, true) ∧
      t.already_notified_chapters = ["1", "2", "3"] ∧
      t.last_created_at = some m ∧
      m ∈ ["2023-01-01", "2023-03-01", "2023-02-01"] ∧
      (∀ ch ∈ [ ({ id := 1, chap := "1", title := "c1", created_at := "2023-01-01",
                   group_name := [] } : Chapter),
                { id := 2, chap := "2", title := "c2", created_at := "2023-03-01",
                  group_name := [] },
                { id := 3, chap := "3", title := "c3", created_at := "2023-02-01",
                  group_name := [] } ], pyLe ch.created_at m = true) :=
  bootstrap_seeds_notified_set none _ "t0" (by decide) (by decide)

/-- C10: re-running `initialize_manga_tracking` on a handle whose tracking
document already exists performs no fetch (the result does not depend on the
`fetched` argument at all), leaves the cursor, the notified set and
`last_checked_at` unchanged, only sets `is_active` and refreshes `updated_at`,
and returns `True`. The pending batch is untouched too. -/
theorem reinitialize_existing_frame (st : HandleState) (t : Tracking)
    (fetched : List Chapter) (now : String) (h : st.tracking = some t) :
    initialize_manga_tracking st fetched now
      = ({ tracking := some { t with is_active := true, updated_at := now },
           pending := st.pending }, true) := by
  cases st with
  | mk tr pend =>
      cases h
      rfl

/-- Witness for the re-initialization frame theorem at a concrete input. -/
theorem reinitialize_existing_frame_witness :
    initialize_manga_tracking
      { tracking := some
          { last_created_at := some "2024-01-01", already_notified_chapters := ["1", "2"],
            last_checked_at := "t0", is_active := false, updated_at := "t0" },
        pending := none }
      [{ id := 9, chap := "9", title := "nine", created_at := "2024-02-02", group_name := [] }]
      "t1"
      = ({ tracking := some
            { last_created_at := some "2024-01-01", already_notified_chapters := ["1", "2"],
              last_checked_at := "t0", is_active := true, updated_at := "t1" },
           pending := none }, true) :=
  reinitialize_existing_frame _ _ _ _ rfl



/-! Facts about the per-token delivery loop of `send_notification_to_tokens`. -/

theorem sendEach_eq (send : SendFn) : ∀ (tokens : List String) (i : Nat),
    sendEach send i tokens =
      ((tokens.filter (fun t => sendOk (send t))).length,
       (tokens.filter (fun t => !(sendOk (send t)))).length,
       (List.enumFrom i tokens).map (tokenResponse send))
  | [], _ => rfl
  | token :: rest, i => by
      show (match send token with
        | Except.ok _ => ((sendEach send (i+1) rest).1 + 1, (sendEach send (i+1) rest).2.1,
            tokenResponse send (i, token) :: (sendEach send (i+1) rest).2.2)
        | Except.error _ => ((sendEach send (i+1) rest).1, (sendEach send (i+1) rest).2.1 + 1,
            tokenResponse send (i, token) :: (sendEach send (i+1) rest).2.2)) = _
      rw [sendEach_eq send rest (i + 1)]
      cases hr : send token with
      | ok m => simp [List.filter_cons, sendOk, hr, List.enumFrom]
      | error e => simp [List.filter_cons, sendOk, hr, List.enumFrom]

/-- C9: for a list of valid tokens, one raising delivery does not abort the
rest: every token is attempted (the response list enumerates all of them in
order), and the outcome counts the successful and the failed attempts
exactly. -/
theorem token_fanout_counts (send : SendFn) (tokens : List String)
    (hval : ∀ t ∈ tokens, validToken t = true) :
    (send_notification_to_tokens send tokens).responses
        = (List.enumFrom 0 tokens).map (tokenResponse send) ∧
    (send_notification_to_tokens send tokens).responses.length = tokens.length ∧
    (send_notification_to_tokens send tokens).success_count
        = (tokens.filter (fun t => sendOk (send t))).length ∧
    (send_notification_to_tokens send tokens).failure_count
        = (tokens.filter (fun t => !(sendOk (send t)))).length := by
  have hfil : tokens.filter validToken = tokens :=
    List.filter_eq_self.mpr (fun a ha => hval a ha)
  unfold send_notification_to_tokens
  cases tokens with
  | nil => refine ⟨rfl, rfl, rfl, rfl⟩
  | cons t ts =>
      rw [if_neg (by simp)]
      dsimp only
      rw [hfil, if_neg (by simp)]
      rw [sendEach_eq send (t :: ts) 0]
      refine ⟨rfl, ?_, rfl, rfl⟩
      simp [List.length_map, List.enumFrom_length]

/-- Witness for the token fan-out theorem: three valid tokens, the second
delivery raises; two successes, one failure, three attempts. -/
theorem token_fanout_counts_witness :
    (send_notification_to_tokens
        (fun t => if t == "t2" then Except.error "boom" else Except.ok "mid")
        ["t1", "t2", "t3"]).responses
      = (List.enumFrom 0 ["t1", "t2", "t3"]).map
          (tokenResponse (fun t => if t == "t2" then Except.error "boom" else Except.ok "mid")) ∧
    (send_notification_to_tokens
        (fun t => if t == "t2" then Except.error "boom" else Except.ok "mid")
        ["t1", "t2", "t3"]).responses.length = (["t1", "t2", "t3"] : List String).length ∧
    (send_notification_to_tokens
        (fun t => if t == "t2" then Except.error "boom" else Except.ok "mid")
        ["t1", "t2", "t3"]).success_count
      = ((["t1", "t2", "t3"] : List String).filter
          (fun t => sendOk (if t == "t2" then Except.error "boom" else Except.ok "mid"))).length ∧
    (send_notification_to_tokens
        (fun t => if t == "t2" then Except.error "boom" else Except.ok "mid")
        ["t1", "t2", "t3"]).failure_count
      = ((["t1", "t2", "t3"] : List String).filter
          (fun t => !(sendOk (if t == "t2" then Except.error "boom" else Except.ok "mid")))).length :=
  token_fanout_counts _ _ (by decide)



/-- C1 (code bug): dispatching a pending batch of exactly one chapter never
attempts a send. `_send_manga_notifications` builds a `data` payload that
reads the local variable `chapter_list`, which is only ever assigned in the
multi-chapter branch with a nonempty title, so the single-chapter path raises
`NameError` before `send_manga_notification` is called; the enclosing `try`
returns an all-zero outcome with an `error` key. Here the manga has one
subscriber with one valid token and a transport that would succeed, yet the
outcome reports zero subscribers, zero successes and zero failures. -/
theorem single_chapter_dispatch_name_error :
    send_manga_notifications (fun _ => ["user1"]) (fun _ => ["tokenA"])
      (fun _ => Except.ok "mid") "manga1"
      [{ id := 1, chap := "10", title := "Chapter Ten", created_at := "2024-01-01",
         group_name := [], detected_at := "d" }] =
    { manga_hid := "manga1", chapters_sent := ["10"], subscribers_count := 0,
      success_count := 0, failure_count := 0,
      error := some "NameError: name chapter_list is not defined" } := by
  decide

/-- C2 counterexample: `_store_pending_notifications` computes the set of
already-present numbers once, before its loop, so two records carrying the
same number inside one call are both appended: the resulting batch holds two
entries for number `10`. -/
theorem pending_batch_duplicate_number_in_one_append :
    ((store_pending (some [])
        [ { id := 1, chap := "10", title := "A", created_at := "c1", group_name := [],
            detected_at := "d" },
          { id := 2, chap := "10", title := "B", created_at := "c2", group_name := [],
            detected_at := "d" } ]).filter (fun ch => ch.chap == "10")).length = 2 := by
  decide

theorem foldl_skip_eq_append_filter {α : Type} (p : α → Bool) :
    ∀ (l init : List α),
      l.foldl (fun acc x => if p x then acc else acc ++ [x]) init
        = init ++ l.filter (fun x => !(p x))
  | [], init => by simp
  | x :: l, init => by
      rw [List.foldl_cons]
      by_cases h : p x
      · rw [if_pos h, foldl_skip_eq_append_filter p l init]
        simp [List.filter_cons, h]
      · rw [if_neg h, foldl_skip_eq_append_filter p l (init ++ [x])]
        simp [List.filter_cons, h]

theorem store_pending_some_eq (existing new_chapters : List NewChapterRecord) :
    store_pending (some existing) new_chapters
      = existing ++ new_chapters.filter
          (fun ch => !((existing.map (fun c => c.chap)).contains ch.chap)) := by
  unfold store_pending
  exact foldl_skip_eq_append_filter _ new_chapters existing

/-- C2 (amended): the merge-by-number append deduplicates only against the
numbers already in the batch before the call. Provided the batch's numbers
were distinct and the appended records have pairwise-distinct numbers, the
batch's numbers stay distinct after the append, and a number present before
the call still has exactly one entry afterwards. -/
theorem pending_batch_merge_nodup (existing new_chapters : List NewChapterRecord)
    (hex : (existing.map (fun ch => ch.chap)).Nodup)
    (hnew : (new_chapters.map (fun ch => ch.chap)).Nodup) :
    ((store_pending (some existing) new_chapters).map (fun ch => ch.chap)).Nodup ∧
    ∀ n ∈ existing.map (fun ch => ch.chap),
      ((store_pending (some existing) new_chapters).map (fun ch => ch.chap)).count n = 1 := by
  have hnd :
      ((store_pending (some existing) new_chapters).map (fun ch => ch.chap)).Nodup := by
    rw [store_pending_some_eq, List.map_append]
    refine hex.append ?_ ?_
    · exact hnew.sublist ((List.filter_sublist new_chapters).map (fun ch => ch.chap))
    · intro a ha hb
      rw [List.mem_map] at hb
      obtain ⟨ch, hch, rfl⟩ := hb
      rw [List.mem_filter] at hch
      have hc : ((existing.map (fun c => c.chap)).contains ch.chap) = false := by
        simpa using hch.2
      rw [(contains_iff_mem _ _).mpr ha] at hc
      exact absurd hc (by simp)
  refine ⟨hnd, ?_⟩
  intro n hn
  refine List.count_eq_one_of_mem hnd ?_
  rw [store_pending_some_eq, List.map_append]
  exact List.mem_append_left _ hn

/-- Witness for the amended merge theorem: appending a record whose number
already exists in the batch plus one genuinely new record. -/
theorem pending_batch_merge_nodup_witness :
    (((store_pending
        (some [{ id := 1, chap := "10", title := "A", created_at := "c1", group_name := [],
                 detected_at := "d" }])
        [ { id := 2, chap := "10", title := "", created_at := "c2", group_name := [],
            detected_at := "d" },
          { id := 3, chap := "11", title := "B", created_at := "c3", group_name := [],
            detected_at := "d" } ]).map (fun ch => ch.chap)).Nodup ∧
      ∀ n ∈ ([{ id := 1, chap := "10", title := "A", created_at := "c1", group_name := [],
                detected_at := "d" }] : List NewChapterRecord).map (fun ch => ch.chap),
        ((store_pending
            (some [{ id := 1, chap := "10", title := "A", created_at := "c1",
                     group_name := [], detected_at := "d" }])
            [ { id := 2, chap := "10", title := "", created_at := "c2", group_name := [],
                detected_at := "d" },
              { id := 3, chap := "11", title := "B", created_at := "c3", group_name := [],
                detected_at := "d" } ]).map (fun ch => ch.chap)).count n = 1) :=
  pending_batch_merge_nodup _ _ (by decide) (by decide)



/-! Facts about `_mark_chapters_notified` and the notification run loop. -/

theorem send_manga_notifications_hid (subsOf tokensOf : String → List String)
    (send : SendFn) (h1 : String) (chapters : List NewChapterRecord) :
    (send_manga_notifications subsOf tokensOf send h1 chapters).manga_hid = h1 := by
  unfold send_manga_notifications
  dsimp only
  split
  · rfl
  · split <;> rfl

theorem mark_lookup_eq (now : String) (chapters : List NewChapterRecord) :
    ∀ (trackings : List (String × Tracking)) (manga_hid : String),
      (mark_chapters_notified now trackings manga_hid chapters).lookup manga_hid
        = (trackings.lookup manga_hid).map (markTracking now chapters)
  | [], _ => rfl
  | (k, v) :: rest, manga_hid => by
      have ih := mark_lookup_eq now chapters rest manga_hid
      unfold mark_chapters_notified at ih ⊢
      rw [List.map_cons]
      by_cases hk : k = manga_hid
      · subst hk
        rw [if_pos (by simp)]
        simp only [List.lookup, beq_self_eq_true]
        rfl
      · rw [if_neg (by simp [hk])]
        have hne : manga_hid ≠ k := fun h => hk h.symm
        simp only [List.lookup, beq_eq_false_iff_ne.mpr hne]
        exact ih

theorem mark_lookup_ne (now : String) (chapters : List NewChapterRecord) :
    ∀ (trackings : List (String × Tracking)) (h1 hid : String), h1 ≠ hid →
      (mark_chapters_notified now trackings h1 chapters).lookup hid
        = trackings.lookup hid
  | [], _, _, _ => rfl
  | (k, v) :: rest, h1, hid, hne => by
      have ih := mark_lookup_ne now chapters rest h1 hid hne
      unfold mark_chapters_notified at ih ⊢
      rw [List.map_cons]
      by_cases hk : k = h1
      · rw [if_pos (by simp [hk])]
        have hne2 : hid ≠ k := fun h => hne (hk.symm.trans h.symm)
        simp only [List.lookup, beq_eq_false_iff_ne.mpr hne2]
        exact ih
      · rw [if_neg (by simp [hk])]
        by_cases hk2 : hid = k
        · subst hk2
          simp only [List.lookup, beq_self_eq_true]
        · simp only [List.lookup, beq_eq_false_iff_ne.mpr hk2]
          exact ih

theorem notifLoop_pending_subset (env : Env) (now : String) :
    ∀ (pend : List (String × List NewChapterRecord)) (trackings : List (String × Tracking))
      (res : RunResults) (hid : String),
      hid ∉ pend.map Prod.fst →
      hid ∉ ((notifLoop env now pend trackings res).2.1).map Prod.fst
  | [], _, _, _, _ => by simp [notifLoop]
  | (h1, chs1) :: rest, trackings, res, hid, hmem => by
      rw [List.map_cons] at hmem
      have hne : hid ≠ h1 := fun h => hmem (h ▸ List.mem_cons_self _ _)
      have hrest : hid ∉ rest.map Prod.fst := fun h => hmem (List.mem_cons_of_mem _ h)
      unfold notifLoop
      split
      · dsimp only
        rw [List.map_cons]
        intro hc
        rcases List.mem_cons.mp hc with h | h
        · exact hne h
        · exact notifLoop_pending_subset env now rest trackings res hid hrest h
      · exact notifLoop_pending_subset env now rest _ _ hid hrest

theorem notifLoop_trackings_other (env : Env) (now : String) :
    ∀ (pend : List (String × List NewChapterRecord)) (trackings : List (String × Tracking))
      (res : RunResults) (hid : String),
      hid ∉ pend.map Prod.fst →
      ((notifLoop env now pend trackings res).2.2).lookup hid = trackings.lookup hid
  | [], _, _, _, _ => rfl
  | (h1, chs1) :: rest, trackings, res, hid, hmem => by
      rw [List.map_cons] at hmem
      have hne : hid ≠ h1 := fun h => hmem (h ▸ List.mem_cons_self _ _)
      have hrest : hid ∉ rest.map Prod.fst := fun h => hmem (List.mem_cons_of_mem _ h)
      unfold notifLoop
      split
      · exact notifLoop_trackings_other env now rest trackings res hid hrest
      · rw [notifLoop_trackings_other env now rest _ _ hid hrest]
        exact mark_lookup_ne now chs1 trackings h1 hid (fun h => hne h.symm)

theorem notifLoop_results_filter (env : Env) (now : String) :
    ∀ (pend : List (String × List NewChapterRecord)) (trackings : List (String × Tracking))
      (res : RunResults) (hid : String),
      hid ∉ pend.map Prod.fst →
      ((notifLoop env now pend trackings res).1).manga_notifications.filter
          (fun mr => mr.manga_hid == hid)
        = res.manga_notifications.filter (fun mr => mr.manga_hid == hid)
  | [], _, _, _, _ => rfl
  | (h1, chs1) :: rest, trackings, res, hid, hmem => by
      rw [List.map_cons] at hmem
      have hne : hid ≠ h1 := fun h => hmem (h ▸ List.mem_cons_self _ _)
      have hrest : hid ∉ rest.map Prod.fst := fun h => hmem (List.mem_cons_of_mem _ h)
      unfold notifLoop
      split
      · exact notifLoop_results_filter env now rest trackings res hid hrest
      · rw [notifLoop_results_filter env now rest _ _ hid hrest]
        unfold addResult
        dsimp only
        rw [List.filter_append]
        have hbe : ((send_manga_notifications env.subsOf env.tokensOf env.send h1
            chs1).manga_hid == hid) = false := by
          rw [send_manga_notifications_hid]
          exact beq_eq_false_iff_ne.mpr (fun h => hne h.symm)
        simp [List.filter_cons, hbe]

theorem notifLoop_spec (env : Env) (now : String) :
    ∀ (pend : List (String × List NewChapterRecord)) (trackings : List (String × Tracking))
      (res : RunResults) (hid : String) (chapters : List NewChapterRecord) (t : Tracking),
      (hid, chapters) ∈ pend → chapters ≠ [] → (pend.map Prod.fst).Nodup →
      trackings.lookup hid = some t →
      res.manga_notifications.filter (fun mr => mr.manga_hid == hid) = [] →
      hid ∉ ((notifLoop env now pend trackings res).2.1).map Prod.fst ∧
      ((notifLoop env now pend trackings res).2.2).lookup hid
          = some (markTracking now chapters t) ∧
      ((notifLoop env now pend trackings res).1).manga_notifications.filter
          (fun mr => mr.manga_hid == hid)
        = [send_manga_notifications env.subsOf env.tokensOf env.send hid chapters]
  | [], _, _, hid, chapters, _, hmem, _, _, _, _ => absurd hmem (List.not_mem_nil _)
  | (h1, chs1) :: rest, trackings, res, hid, chapters, t, hmem, hne, hnodup, ht, hres => by
      rw [List.map_cons] at hnodup
      have hnodup1 : h1 ∉ rest.map Prod.fst := (List.nodup_cons.mp hnodup).1
      have hnodup2 : (rest.map Prod.fst).Nodup := (List.nodup_cons.mp hnodup).2
      rcases List.mem_cons.mp hmem with heq | hmem2
      · -- the batch at the head of the pending stream is ours
        injection heq.symm with heq1 heq2
        subst heq1
        subst heq2
        unfold notifLoop
        rw [if_neg (by simpa [List.isEmpty_iff] using hne)]
        refine ⟨?_, ?_, ?_⟩
        · exact notifLoop_pending_subset env now rest _ _ h1 hnodup1
        · rw [notifLoop_trackings_other env now rest _ _ h1 hnodup1]
          rw [mark_lookup_eq now chs1 trackings h1, ht]
          rfl
        · rw [notifLoop_results_filter env now rest _ _ h1 hnodup1]
          unfold addResult
          dsimp only
          rw [List.filter_append, hres]
          have hbe : ((send_manga_notifications env.subsOf env.tokensOf env.send h1
              chs1).manga_hid == h1) = true := by
            rw [send_manga_notifications_hid]
            exact beq_self_eq_true h1
          simp [List.filter_cons, hbe]
      · -- our batch is further down the stream
        have hhid : hid ∈ rest.map Prod.fst := List.mem_map_of_mem Prod.fst hmem2
        have hne1 : h1 ≠ hid := fun h => hnodup1 (h ▸ hhid)
        unfold notifLoop
        split
        · have ih := notifLoop_spec env now rest trackings res hid chapters t hmem2 hne
            hnodup2 ht hres
          dsimp only
          refine ⟨?_, ih.2.1, ih.2.2⟩
          rw [List.map_cons]
          intro hc
          rcases List.mem_cons.mp hc with h | h
          · exact hne1 h.symm
          · exact ih.1 h
        · refine notifLoop_spec env now rest _ _ hid chapters t hmem2 hne hnodup2 ?_ ?_
          · rw [mark_lookup_ne now chs1 trackings h1 hid hne1]
            exact ht
          · unfold addResult
            dsimp only
            rw [List.filter_append, hres]
            have hbe : ((send_manga_notifications env.subsOf env.tokensOf env.send h1
                chs1).manga_hid == hid) = false := by
              rw [send_manga_notifications_hid]
              exact beq_eq_false_iff_ne.mpr hne1
            simp [List.filter_cons, hbe]



theorem send_manga_notifications_no_subscribers (subsOf tokensOf : String → List String)
    (send : SendFn) (manga_hid : String) (chapters : List NewChapterRecord)
    (h : subsOf manga_hid = []) :
    send_manga_notifications subsOf tokensOf send manga_hid chapters =
      { manga_hid := manga_hid, chapters_sent := chapters.map (fun ch => ch.chap),
        subscribers_count := 0, success_count := 0, failure_count := 0, error := none } := by
  unfold send_manga_notifications
  rw [h]
  rfl

/-- C3: a notification run drains every non-empty pending batch exactly once,
whatever the delivery outcomes: provided the pending document ids are unique
and the handle has a tracking document, after the run the batch is deleted
from pending storage, its chapter numbers are array-union-merged into the
handle's notified set, and the run reports exactly one per-manga result for
the handle; with zero subscribers that result is
`{subscribers_count := 0, success_count := 0, failure_count := 0}` and the
batch is still deleted. -/
theorem pending_batch_drained_and_marked (env : Env) (now : String) (st : Store)
    (manga_hid : String) (chapters : List NewChapterRecord) (t : Tracking)
    (hmem : (manga_hid, chapters) ∈ st.pending)
    (hne : chapters ≠ [])
    (hnodup : (st.pending.map Prod.fst).Nodup)
    (ht : st.trackings.lookup manga_hid = some t) :
    manga_hid ∉ ((send_scheduled_notifications env now st).2.pending.map Prod.fst) ∧
    (send_scheduled_notifications env now st).2.trackings.lookup manga_hid
        = some { t with
            already_notified_chapters :=
              arrayUnion t.already_notified_chapters (chapterNums chapters)
            updated_at := now } ∧
    ((send_scheduled_notifications env now st).1.manga_notifications.filter
        (fun mr => mr.manga_hid == manga_hid))
      = [send_manga_notifications env.subsOf env.tokensOf env.send manga_hid chapters] ∧
    (env.subsOf manga_hid = [] →
      ((send_scheduled_notifications env now st).1.manga_notifications.filter
          (fun mr => mr.manga_hid == manga_hid))
        = [{ manga_hid := manga_hid, chapters_sent := chapters.map (fun ch => ch.chap),
             subscribers_count := 0, success_count := 0, failure_count := 0,
             error := none }]) := by
  have hspec := notifLoop_spec env now st.pending st.trackings
    { total_manga_processed := 0, total_notifications_sent := 0, total_success := 0,
      total_failures := 0, manga_notifications := [] }
    manga_hid chapters t hmem hne hnodup ht rfl
  unfold send_scheduled_notifications
  dsimp only
  refine ⟨hspec.1, ?_, hspec.2.2, ?_⟩
  · rw [hspec.2.1]
    rfl
  · intro hsubs
    rw [hspec.2.2, send_manga_notifications_no_subscribers env.subsOf env.tokensOf env.send
      manga_hid chapters hsubs]

/-- Witness for the batch-draining theorem: one pending batch of two chapters,
zero subscribers. -/
theorem pending_batch_drained_and_marked_witness :
    let env : Env :=
      { subsOf := fun _ => [], tokensOf := fun _ => [], send := fun _ => Except.ok "mid" }
    let t0 : Tracking :=
      { last_created_at := some "2024-01-01", already_notified_chapters := ["1"],
        last_checked_at := "t0", is_active := true, updated_at := "t0" }
    let chapters : List NewChapterRecord :=
      [ { id := 1, chap := "2", title := "two", created_at := "2024-01-02", group_name := [],
          detected_at := "d" },
        { id := 2, chap := "3", title := "three", created_at := "2024-01-03", group_name := [],
          detected_at := "d" } ]
    let st : Store := { pending := [("m1", chapters)], trackings := [("m1", t0)] }
    "m1" ∉ ((send_scheduled_notifications env "t1" st).2.pending.map Prod.fst) ∧
    (send_scheduled_notifications env "t1" st).2.trackings.lookup "m1"
        = some { t0 with
            already_notified_chapters :=
              arrayUnion t0.already_notified_chapters (chapterNums chapters)
            updated_at := "t1" } ∧
    ((send_scheduled_notifications env "t1" st).1.manga_notifications.filter
        (fun mr => mr.manga_hid == "m1"))
      = [send_manga_notifications env.subsOf env.tokensOf env.send "m1" chapters] ∧
    (env.subsOf "m1" = [] →
      ((send_scheduled_notifications env "t1" st).1.manga_notifications.filter
          (fun mr => mr.manga_hid == "m1"))
        = [{ manga_hid := "m1", chapters_sent := chapters.map (fun ch => ch.chap),
             subscribers_count := 0, success_count := 0, failure_count := 0,
             error := none }]) :=
  pending_batch_drained_and_marked _ "t1" _ "m1" _ _ (by decide) (by decide) (by decide) rfl


end Manga
